import Mathlib

/-
Verification development for the API-Key-Manager repository.

The definitions below are a shallow embedding of the key-verification
pipeline and its two limiter engines:

  * `is_ip_allowed`           — app/utils/ip_utils.py
  * `check_rate_limit`        — app/services/rate_limiter.py, RateLimiter
  * `check_and_decrement`     — app/services/rate_limiter.py, UsageLimiter
  * `verify_key`              — app/routes/keys.py, the /v1/keys/verify handler
  * `AuditService.log`        — app/services/audit.py

Machine conventions: timestamps and counters are Lean `Int`; the redis
sorted set backing a rate window is a `Finset Int` (its member strings are
`str(now)`, so member identity coincides with score identity); Python
`None` is `Option.none`; Python dict context payloads are modelled by the
fields the code actually writes.
-/

/-- Abstract interface to the external `ipaddress` stdlib module used by
app/utils/ip_utils.py: an address type, a network type, parsers that fail
with `none` where Python raises `ValueError`, and network membership.
`is_ip_allowed` is embedded relative to an arbitrary such family, so its
theorems hold for every parsing backend (IPv4 and IPv6 alike). -/
structure IpFamily where
  Addr : Type
  Net : Type
  beqAddr : Addr → Addr → Bool
  parseAddr : String → Option Addr
  parseNet : String → Option Net
  memNet : Addr → Net → Bool

/-- Body of the `for allowed in allowed_ips` loop of `is_ip_allowed`
(app/utils/ip_utils.py lines 29-42): an entry containing a slash is parsed
as a CIDR network and tested for membership, any other entry is parsed as a
single address and tested for equality; a `ValueError` (parse failure) on
the entry makes the loop `continue`, i.e. the entry simply does not match. -/
def entry_matches (F : IpFamily) (client_addr : F.Addr) (allowed : String) : Bool :=
  if allowed.data.contains '/' then
    match F.parseNet allowed with
    | some network => F.memNet client_addr network
    | none => false
  else
    match F.parseAddr allowed with
    | some a => F.beqAddr client_addr a
    | none => false

/-- Embedding of `is_ip_allowed` (app/utils/ip_utils.py lines 8-44).
`client_ip` is an `Option String` because the caller passes
`request.client.host if request.client else None`, and
`ipaddress.ip_address(None)` raises `ValueError` (parse failure). -/
def is_ip_allowed (F : IpFamily) (client_ip : Option String)
    (allowed_ips : Option (List String)) : Bool :=
  match allowed_ips with
  | none => true
  | some [] => true
  | some entries =>
    match client_ip with
    | none => false
    | some s =>
      match F.parseAddr s with
      | none => false
      | some client_addr => entries.any (entry_matches F client_addr)

/-- Split a character list at every occurrence of a separator, keeping
empty segments, as Python's `str.split` does. -/
def splitOnChar (sep : Char) : List Char → List (List Char)
  | [] => [[]]
  | c :: cs =>
    let r := splitOnChar sep cs
    if c = sep then [] :: r
    else
      match r with
      | [] => [[c]]
      | h :: t => (c :: h) :: t

/-- Numeric value of a run of ASCII digits. -/
def digitsToNat (l : List Char) : Nat :=
  l.foldl (fun acc c => acc * 10 + (c.toNat - 48)) 0

/-- One dotted-quad octet as accepted by `ipaddress.IPv4Address`: one to
three ASCII digits, no leading zero, value at most 255. Used only to build
the concrete `ipv4` family for evaluating theorems on explicit inputs. -/
def parseOctet (l : List Char) : Option Nat :=
  if l.length = 0 then none
  else if l.length > 3 then none
  else if ¬ l.all Char.isDigit then none
  else if l.length > 1 ∧ l.headI = '0' then none
  else
    let n := digitsToNat l
    if n ≤ 255 then some n else none

/-- Dotted-quad parsing on the underlying character list. -/
def parseIPv4Chars (l : List Char) : Option Nat :=
  match splitOnChar '.' l with
  | [a, b, c, d] =>
    match parseOctet a, parseOctet b, parseOctet c, parseOctet d with
    | some a, some b, some c, some d =>
        some (((a * 256 + b) * 256 + c) * 256 + d)
    | _, _, _, _ => none
  | _ => none

/-- IPv4 dotted-quad parser (the IPv4 half of `ipaddress.ip_address`),
returning the address as a natural below 2^32. -/
def parseIPv4 (s : String) : Option Nat :=
  parseIPv4Chars s.data

/-- CIDR prefix length: ASCII digits with value at most 32. -/
def parsePlen (l : List Char) : Option Nat :=
  if l.length = 0 then none
  else if ¬ l.all Char.isDigit then none
  else
    let n := digitsToNat l
    if n ≤ 32 then some n else none

/-- IPv4 CIDR parser (the IPv4 half of `ipaddress.ip_network` with
`strict=False`): `addr/plen`, host bits implicitly masked by the
membership test. -/
def parseCIDR (s : String) : Option (Nat × Nat) :=
  match splitOnChar '/' s.data with
  | [addr, plen] =>
    match parseIPv4Chars addr, parsePlen plen with
    | some a, some p => some (a, p)
    | _, _ => none
  | _ => none

/-- Concrete IPv4 instantiation of `IpFamily`, used to evaluate the
pipeline on explicit inputs. Membership in `a/p` compares the high `p`
bits, which is exactly `addr & mask == network_address` after
`strict=False` masking. -/
def ipv4 : IpFamily where
  Addr := Nat
  Net := Nat × Nat
  beqAddr := fun a b => a == b
  parseAddr := parseIPv4
  parseNet := parseCIDR
  memNet := fun a n => a / 2 ^ (32 - n.2) == n.1 / 2 ^ (32 - n.2)

/-- Result triple of `RateLimiter.check_rate_limit`
(app/services/rate_limiter.py lines 23-78). -/
structure RateResult where
  allowed : Bool
  remaining : Int
  reset_at : Int
deriving DecidableEq, Repr

/-- The `zremrangebyscore(redis_key, 0, window_start)` step: drop every
entry whose score lies in the inclusive range `[0, window_start]`. -/
def evict (w : Finset Int) (window_start : Int) : Finset Int :=
  w.filter (fun t => ¬ (0 ≤ t ∧ t ≤ window_start))

/-- Embedding of `RateLimiter.check_rate_limit` (app/services/rate_limiter.py
lines 23-78). The redis pipeline evicts old entries, counts the survivors,
unconditionally ZADDs the member `str(now)` with score `now`, and refreshes
the key expiry; the handler then computes `remaining = max(0, max − count − 1)`
and `allowed = count < max`, and on denial ZREMs the member `str(now)` and
reports `remaining = 0`. Returns the result triple and the new window state. -/
def check_rate_limit (w : Finset Int) (now max_requests window_seconds : Int) :
    RateResult × Finset Int :=
  let window_start := now - window_seconds
  let w1 := evict w window_start
  let current_count : Int := (w1.card : Int)
  let w2 := insert now w1
  let remaining := max 0 (max_requests - current_count - 1)
  let reset_at := now + window_seconds
  let allowed := decide (current_count < max_requests)
  if allowed then
    (⟨true, remaining, reset_at⟩, w2)
  else
    (⟨false, 0, reset_at⟩, w2.erase now)

/-- Embedding of `UsageLimiter.check_and_decrement`
(app/services/rate_limiter.py lines 100-120): a pure function of the
`remaining` value read from the loaded record (`max_uses` is received but
never consulted, as in the source). -/
def check_and_decrement (remaining : Option Int) (max_uses : Option Int) :
    Bool × Option Int :=
  match remaining with
  | none => (true, none)
  | some r => if r ≤ 0 then (false, some 0) else (true, some (r - 1))

/-- The fields of the `ApiKey` ORM record (app/models/api_key.py) that the
verification pipeline reads or writes. Timestamps are `Int`; nullable
columns are `Option`. -/
structure ApiKey where
  id : Nat
  owner_id : Option String
  meta : List (String × String)
  allowed_ips : Option (List String)
  rate_limit_max : Option Int
  rate_limit_window : Option Int
  remaining_uses : Option Int
  max_uses : Option Int
  refill_enabled : Bool
  refill_amount : Option Int
  refill_interval : Option Int
  last_refill_at : Option Int
  expires_at : Option Int
  revoked : Bool
  last_used_at : Option Int
deriving DecidableEq, Repr

/-- One `AuditLog` row as written by `AuditService.log`
(app/services/audit.py); for verification attempts the context dict is
`{"success": success, "reason": reason}`, modelled by the pair. -/
structure AuditEntry where
  api_key_id : Nat
  action : String
  ip_address : Option String
  user_agent : Option String
  context : Option (Bool × Option String)
deriving DecidableEq, Repr

/-- Embedding of `AuditService.log` (app/services/audit.py lines 13-46):
append one immutable entry to the audit trail. -/
def AuditService.log (audit : List AuditEntry) (api_key_id : Nat) (action : String)
    (ip_address : Option String) (user_agent : Option String)
    (context : Option (Bool × Option String)) : List AuditEntry :=
  audit ++ [⟨api_key_id, action, ip_address, user_agent, context⟩]

/-- Embedding of the `_log_verify` helper (app/routes/keys.py lines
421-436): one audit entry with action `"verify"` and context
`{success, reason}`. -/
def log_verify (audit : List AuditEntry) (api_key : ApiKey)
    (client_ip user_agent : Option String) (success : Bool)
    (reason : Option String) : List AuditEntry :=
  AuditService.log audit api_key.id "verify" client_ip user_agent (some (success, reason))

/-- The `KeyVerifyResponse` schema (app/schemas.py lines 124-132), all
optional fields defaulting to `None`. -/
structure KeyVerifyResponse where
  valid : Bool
  key_id : Option Nat := none
  owner_id : Option String := none
  metadata : Option (List (String × String)) := none
  remaining : Option Int := none
  reset_at : Option Int := none
  error : Option String := none
deriving DecidableEq, Repr

/-- Everything a verification call produces or mutates: the HTTP response,
the (possibly updated) key record as left in the session, the rate window
for this key, and the audit trail. -/
structure VerifyResult where
  resp : KeyVerifyResponse
  api_key : Option ApiKey
  window : Finset Int
  audit : List AuditEntry
deriving DecidableEq

/-- The guard `if api_key.expires_at and datetime.utcnow() > api_key.expires_at`
(app/routes/keys.py line 357); a datetime object is always truthy. -/
def expiresPassed (api_key : ApiKey) (now : Int) : Bool :=
  match api_key.expires_at with
  | some e => decide (now > e)
  | none => false

/-- Python truthiness of a nullable integer column: `None` and `0` are
falsy (the guard `if api_key.rate_limit_max`, app/routes/keys.py line 371). -/
def truthyInt : Option Int → Bool
  | none => false
  | some n => decide (n ≠ 0)

/-- Python `x or d` on a nullable integer: the default applies when `x`
is `None` or `0` (`api_key.rate_limit_window or 3600`, line 378). -/
def orInt (o : Option Int) (d : Int) : Int :=
  match o with
  | some n => if n = 0 then d else n
  | none => d

/-- The success epilogue of the handler (app/routes/keys.py lines 405-418):
set `last_used_at = now`, write the success audit entry, and return the
success response carrying the rate-limit telemetry computed earlier. -/
def commitSuccess (api_key : ApiKey) (client_ip user_agent : Option String)
    (now : Int) (window : Finset Int) (audit : List AuditEntry)
    (remaining reset_at : Option Int) : VerifyResult :=
  let k := { api_key with last_used_at := some now }
  { resp := { valid := true, key_id := some k.id, owner_id := k.owner_id,
              metadata := some k.meta, remaining := remaining, reset_at := reset_at },
    api_key := some k, window := window,
    audit := log_verify audit k client_ip user_agent true none }

/-- The usage-limit step and what follows it (app/routes/keys.py lines
390-418): when `remaining_uses is not None`, run `check_and_decrement` on
the loaded snapshot; on denial return the usage failure with the record
untouched; on success store the decremented count and fall through to the
success epilogue. -/
def verifyUsage (api_key : ApiKey) (client_ip user_agent : Option String)
    (now : Int) (window : Finset Int) (audit : List AuditEntry)
    (remaining reset_at : Option Int) : VerifyResult :=
  if api_key.remaining_uses.isSome then
    let ucd := check_and_decrement api_key.remaining_uses api_key.max_uses
    if !ucd.1 then
      { resp := { valid := false, error := some "Usage limit exceeded" },
        api_key := some api_key, window := window,
        audit := log_verify audit api_key client_ip user_agent false (some "usage_exceeded") }
    else
      commitSuccess { api_key with remaining_uses := ucd.2 }
        client_ip user_agent now window audit remaining reset_at
  else
    commitSuccess api_key client_ip user_agent now window audit remaining reset_at

/-- Embedding of the `/v1/keys/verify` handler `verify_key`
(app/routes/keys.py lines 320-418). `api_key?` is the result of the
lookup by `hash_api_key(data.key)`; `now` stands for `datetime.utcnow()` /
`time.time()`; `window` and `audit` are the redis window for this key and
the audit trail, threaded explicitly. -/
def verify_key (F : IpFamily) (api_key? : Option ApiKey)
    (client_ip user_agent : Option String) (now : Int) (window : Finset Int)
    (audit : List AuditEntry) : VerifyResult :=
  match api_key? with
  | none =>
    { resp := { valid := false, error := some "Key not found" },
      api_key := none, window := window, audit := audit }
  | some api_key =>
    if api_key.revoked then
      { resp := { valid := false, error := some "Key revoked" },
        api_key := some api_key, window := window,
        audit := log_verify audit api_key client_ip user_agent false (some "revoked") }
    else if expiresPassed api_key now then
      { resp := { valid := false, error := some "Key expired" },
        api_key := some api_key, window := window,
        audit := log_verify audit api_key client_ip user_agent false (some "expired") }
    else if !(is_ip_allowed F client_ip api_key.allowed_ips) then
      { resp := { valid := false, error := some "IP not allowed" },
        api_key := some api_key, window := window,
        audit := log_verify audit api_key client_ip user_agent false (some "ip_blocked") }
    else if truthyInt api_key.rate_limit_max then
      let rr := check_rate_limit window now (api_key.rate_limit_max.getD 0)
                  (orInt api_key.rate_limit_window 3600)
      if !rr.1.allowed then
        { resp := { valid := false, error := some "Rate limit exceeded",
                    remaining := some 0, reset_at := some rr.1.reset_at },
          api_key := some api_key, window := rr.2,
          audit := log_verify audit api_key client_ip user_agent false (some "rate_limited") }
      else
        verifyUsage api_key client_ip user_agent now rr.2 audit
          (some rr.1.remaining) (some rr.1.reset_at)
    else
      verifyUsage api_key client_ip user_agent now window audit none none

/-- The same handler with the fallibility of the redis round-trip made
explicit. The handler consults redis only inside the
`if api_key.rate_limit_max:` block (`get_redis()` + pipeline execute,
app/routes/keys.py lines 371-379); it contains no try/except, and
app/main.py installs no exception handler, so a redis failure escapes as
an exception (`Except.error ()`) instead of producing a response. With a
healthy store the handler behaves exactly as `verify_key`. -/
def verify_keyE (F : IpFamily) (redis_ok : Bool) (api_key? : Option ApiKey)
    (client_ip user_agent : Option String) (now : Int) (window : Finset Int)
    (audit : List AuditEntry) : Except Unit VerifyResult :=
  match api_key? with
  | none => .ok (verify_key F none client_ip user_agent now window audit)
  | some api_key =>
    if api_key.revoked = true ∨ expiresPassed api_key now = true ∨
        is_ip_allowed F client_ip api_key.allowed_ips = false then
      .ok (verify_key F (some api_key) client_ip user_agent now window audit)
    else if truthyInt api_key.rate_limit_max = true ∧ redis_ok = false then
      .error ()
    else
      .ok (verify_key F (some api_key) client_ip user_agent now window audit)

/-- The verification state machine as the specification describes it:
checks in the strict order LOOKUP, REVOKED, EXPIRED, IP_ALLOWED,
RATE_LIMIT (only if a ceiling is configured), USAGE (only if a quota is
configured), each short-circuiting to its failure reason, `none` when
every applicable check passes. Written from the spec's words, to be
compared with `verify_key`. -/
def firstFailure (F : IpFamily) (api_key? : Option ApiKey)
    (client_ip : Option String) (now : Int) (window : Finset Int) : Option String :=
  match api_key? with
  | none => some "Key not found"
  | some k =>
    if k.revoked then some "Key revoked"
    else if expiresPassed k now then some "Key expired"
    else if !(is_ip_allowed F client_ip k.allowed_ips) then some "IP not allowed"
    else if truthyInt k.rate_limit_max ∧
        (check_rate_limit window now (k.rate_limit_max.getD 0)
          (orInt k.rate_limit_window 3600)).1.allowed = false then
      some "Rate limit exceeded"
    else if k.remaining_uses.isSome ∧
        (check_and_decrement k.remaining_uses k.max_uses).1 = false then
      some "Usage limit exceeded"
    else none

/-- A baseline key record with no restrictions configured, used to build
the concrete records that theorems are evaluated on. -/
def kBase : ApiKey :=
  { id := 1, owner_id := some "owner-1", meta := [], allowed_ips := none,
    rate_limit_max := none, rate_limit_window := none, remaining_uses := none,
    max_uses := none, refill_enabled := false, refill_amount := none,
    refill_interval := none, last_refill_at := none, expires_at := none,
    revoked := false, last_used_at := none }

/-- A revoked key. -/
def kRevoked : ApiKey := { kBase with revoked := true }

/-- A key with one remaining use. -/
def kUsage1 : ApiKey := { kBase with remaining_uses := some 1, max_uses := some 1 }

/-- An exhausted key whose refill policy is due: `refill_enabled`,
`refill_amount = 5`, `refill_interval = 60`, `last_refill_at = 0`. -/
def kRefill : ApiKey :=
  { kBase with
    remaining_uses := some 0, max_uses := some 5,
    refill_enabled := true, refill_amount := some 5, refill_interval := some 60,
    last_refill_at := some 0 }

/-- A key with a rate ceiling of 5 requests. -/
def kRate : ApiKey := { kBase with rate_limit_max := some 5 }

/-- A key with both an IP allow-list and a rate ceiling. -/
def kIpRate : ApiKey :=
  { kBase with allowed_ips := some ["10.0.0.1"], rate_limit_max := some 3 }

/-- A key with a usage quota but no rate ceiling. -/
def kQuotaOnly : ApiKey := { kBase with remaining_uses := some 5, max_uses := some 5 }

/-- Unfolding lemma: lookup miss. -/
theorem verify_key_none (F : IpFamily) (ip ua : Option String) (now : Int)
    (w : Finset Int) (a : List AuditEntry) :
    verify_key F none ip ua now w a
      = { resp := { valid := false, error := some "Key not found" },
          api_key := none, window := w, audit := a } := rfl

/-- Unfolding lemma: revoked key. -/
theorem verify_key_revoked (F : IpFamily) (k : ApiKey) (ip ua : Option String)
    (now : Int) (w : Finset Int) (a : List AuditEntry) (h : k.revoked = true) :
    verify_key F (some k) ip ua now w a
      = { resp := { valid := false, error := some "Key revoked" },
          api_key := some k, window := w,
          audit := log_verify a k ip ua false (some "revoked") } := by
  simp [verify_key, h]

/-- Unfolding lemma: expired key. -/
theorem verify_key_expired (F : IpFamily) (k : ApiKey) (ip ua : Option String)
    (now : Int) (w : Finset Int) (a : List AuditEntry)
    (h1 : k.revoked = false) (h2 : expiresPassed k now = true) :
    verify_key F (some k) ip ua now w a
      = { resp := { valid := false, error := some "Key expired" },
          api_key := some k, window := w,
          audit := log_verify a k ip ua false (some "expired") } := by
  simp [verify_key, h1, h2]

/-- Unfolding lemma: client IP rejected by the allow-list. -/
theorem verify_key_ip_blocked (F : IpFamily) (k : ApiKey) (ip ua : Option String)
    (now : Int) (w : Finset Int) (a : List AuditEntry)
    (h1 : k.revoked = false) (h2 : expiresPassed k now = false)
    (h3 : is_ip_allowed F ip k.allowed_ips = false) :
    verify_key F (some k) ip ua now w a
      = { resp := { valid := false, error := some "IP not allowed" },
          api_key := some k, window := w,
          audit := log_verify a k ip ua false (some "ip_blocked") } := by
  simp [verify_key, h1, h2, h3]

/-- Unfolding lemma: rate ceiling configured and the sliding-window check
denies the request. -/
theorem verify_key_rate_denied (F : IpFamily) (k : ApiKey) (ip ua : Option String)
    (now : Int) (w : Finset Int) (a : List AuditEntry)
    (h1 : k.revoked = false) (h2 : expiresPassed k now = false)
    (h3 : is_ip_allowed F ip k.allowed_ips = true)
    (h4 : truthyInt k.rate_limit_max = true)
    (h5 : (check_rate_limit w now (k.rate_limit_max.getD 0)
            (orInt k.rate_limit_window 3600)).1.allowed = false) :
    verify_key F (some k) ip ua now w a
      = { resp := { valid := false, error := some "Rate limit exceeded",
                    remaining := some 0,
                    reset_at := some ((check_rate_limit w now (k.rate_limit_max.getD 0)
                      (orInt k.rate_limit_window 3600)).1.reset_at) },
          api_key := some k,
          window := (check_rate_limit w now (k.rate_limit_max.getD 0)
            (orInt k.rate_limit_window 3600)).2,
          audit := log_verify a k ip ua false (some "rate_limited") } := by
  simp [verify_key, h1, h2, h3, h4, h5]

/-- Unfolding lemma: rate ceiling configured and the check admits the
request; control passes to the usage step with the updated window and the
rate telemetry. -/
theorem verify_key_rate_ok (F : IpFamily) (k : ApiKey) (ip ua : Option String)
    (now : Int) (w : Finset Int) (a : List AuditEntry)
    (h1 : k.revoked = false) (h2 : expiresPassed k now = false)
    (h3 : is_ip_allowed F ip k.allowed_ips = true)
    (h4 : truthyInt k.rate_limit_max = true)
    (h5 : (check_rate_limit w now (k.rate_limit_max.getD 0)
            (orInt k.rate_limit_window 3600)).1.allowed = true) :
    verify_key F (some k) ip ua now w a
      = verifyUsage k ip ua now
          ((check_rate_limit w now (k.rate_limit_max.getD 0)
            (orInt k.rate_limit_window 3600)).2) a
          (some ((check_rate_limit w now (k.rate_limit_max.getD 0)
            (orInt k.rate_limit_window 3600)).1.remaining))
          (some ((check_rate_limit w now (k.rate_limit_max.getD 0)
            (orInt k.rate_limit_window 3600)).1.reset_at)) := by
  simp [verify_key, h1, h2, h3, h4, h5]

/-- Unfolding lemma: no rate ceiling configured; control passes straight
to the usage step with the window untouched and no telemetry. -/
theorem verify_key_no_rate (F : IpFamily) (k : ApiKey) (ip ua : Option String)
    (now : Int) (w : Finset Int) (a : List AuditEntry)
    (h1 : k.revoked = false) (h2 : expiresPassed k now = false)
    (h3 : is_ip_allowed F ip k.allowed_ips = true)
    (h4 : truthyInt k.rate_limit_max = false) :
    verify_key F (some k) ip ua now w a = verifyUsage k ip ua now w a none none := by
  simp [verify_key, h1, h2, h3, h4]

/-- Unfolding lemma: no usage quota configured. -/
theorem verifyUsage_no_quota (k : ApiKey) (ip ua : Option String) (now : Int)
    (w : Finset Int) (a : List AuditEntry) (rem ra : Option Int)
    (h : k.remaining_uses = none) :
    verifyUsage k ip ua now w a rem ra = commitSuccess k ip ua now w a rem ra := by
  simp [verifyUsage, h]

/-- Unfolding lemma: usage quota exhausted. -/
theorem verifyUsage_denied (k : ApiKey) (ip ua : Option String) (now : Int)
    (w : Finset Int) (a : List AuditEntry) (rem ra : Option Int) (v : Int)
    (h : k.remaining_uses = some v) (hv : v ≤ 0) :
    verifyUsage k ip ua now w a rem ra
      = { resp := { valid := false, error := some "Usage limit exceeded" },
          api_key := some k, window := w,
          audit := log_verify a k ip ua false (some "usage_exceeded") } := by
  simp [verifyUsage, h, check_and_decrement, hv]

/-- Unfolding lemma: usage quota available; the decremented count is
persisted and the success epilogue runs. -/
theorem verifyUsage_ok (k : ApiKey) (ip ua : Option String) (now : Int)
    (w : Finset Int) (a : List AuditEntry) (rem ra : Option Int) (v : Int)
    (h : k.remaining_uses = some v) (hv : 0 < v) :
    verifyUsage k ip ua now w a rem ra
      = commitSuccess { k with remaining_uses := some (v - 1) } ip ua now w a rem ra := by
  simp [verifyUsage, h, check_and_decrement, not_le.mpr hv]

/-- C1: for every verification call, `verify_key` runs its checks in the
strict order LOOKUP, REVOKED, EXPIRED, IP_ALLOWED, RATE_LIMIT (only if a
ceiling is configured), USAGE (only if a quota is configured),
short-circuiting at the first failing check: the response's error string
equals the first failing reason of the spec state machine `firstFailure`,
the call succeeds exactly when every applicable check passes, and every
reason string is drawn from the closed six-element set. -/
theorem verify_key_pipeline_order (F : IpFamily) (api_key? : Option ApiKey)
    (client_ip user_agent : Option String) (now : Int) (window : Finset Int)
    (audit : List AuditEntry) :
    ((verify_key F api_key? client_ip user_agent now window audit).resp.error
        = firstFailure F api_key? client_ip now window) ∧
    ((verify_key F api_key? client_ip user_agent now window audit).resp.valid = true
        ↔ firstFailure F api_key? client_ip now window = none) ∧
    (∀ r, firstFailure F api_key? client_ip now window = some r →
        r = "Key not found" ∨ r = "Key revoked" ∨ r = "Key expired" ∨
        r = "IP not allowed" ∨ r = "Rate limit exceeded" ∨
        r = "Usage limit exceeded") := by
  cases api_key? with
  | none => simp [verify_key, firstFailure]
  | some k =>
    by_cases h1 : k.revoked = true
    · simp [verify_key_revoked F k client_ip user_agent now window audit h1,
        firstFailure, h1]
    · rw [Bool.not_eq_true] at h1
      by_cases h2 : expiresPassed k now = true
      · simp [verify_key_expired F k client_ip user_agent now window audit h1 h2,
          firstFailure, h1, h2]
      · rw [Bool.not_eq_true] at h2
        by_cases h3 : is_ip_allowed F client_ip k.allowed_ips = true
        · by_cases h4 : truthyInt k.rate_limit_max = true
          · by_cases h5 : (check_rate_limit window now (k.rate_limit_max.getD 0)
                (orInt k.rate_limit_window 3600)).1.allowed = true
            · rw [verify_key_rate_ok F k client_ip user_agent now window audit
                h1 h2 h3 h4 h5]
              cases hru : k.remaining_uses with
              | none =>
                simp [verifyUsage_no_quota _ _ _ _ _ _ _ _ hru, commitSuccess,
                  firstFailure, h1, h2, h3, h4, h5, hru]
              | some v =>
                by_cases h6 : v ≤ 0
                · simp [verifyUsage_denied _ _ _ _ _ _ _ _ v hru h6, firstFailure,
                    h1, h2, h3, h4, h5, hru, check_and_decrement, h6]
                · simp [verifyUsage_ok _ _ _ _ _ _ _ _ v hru (not_le.mp h6),
                    commitSuccess, firstFailure, h1, h2, h3, h4, h5, hru,
                    check_and_decrement, h6]
            · rw [Bool.not_eq_true] at h5
              simp [verify_key_rate_denied F k client_ip user_agent now window audit
                h1 h2 h3 h4 h5, firstFailure, h1, h2, h3, h4, h5]
          · rw [Bool.not_eq_true] at h4
            rw [verify_key_no_rate F k client_ip user_agent now window audit h1 h2 h3 h4]
            cases hru : k.remaining_uses with
            | none =>
              simp [verifyUsage_no_quota _ _ _ _ _ _ _ _ hru, commitSuccess,
                firstFailure, h1, h2, h3, h4, hru]
            | some v =>
              by_cases h6 : v ≤ 0
              · simp [verifyUsage_denied _ _ _ _ _ _ _ _ v hru h6, firstFailure,
                  h1, h2, h3, h4, hru, check_and_decrement, h6]
              · simp [verifyUsage_ok _ _ _ _ _ _ _ _ v hru (not_le.mp h6),
                  commitSuccess, firstFailure, h1, h2, h3, h4, hru,
                  check_and_decrement, h6]
        · rw [Bool.not_eq_true] at h3
          simp [verify_key_ip_blocked F k client_ip user_agent now window audit
            h1 h2 h3, firstFailure, h1, h2, h3]

/-- Witness for `verify_key_pipeline_order`: a concrete revoked key fails
with exactly the reason the state machine assigns. -/
theorem verify_key_pipeline_order_witness :
    (verify_key ipv4 (some kRevoked) (some "1.2.3.4") none 100 ∅ []).resp.error
      = some "Key revoked" := by
  have h := verify_key_pipeline_order ipv4 (some kRevoked) (some "1.2.3.4") none 100 ∅ []
  rw [h.1]
  rfl

/-- C2 counterexample: a check at a timestamp that is already a member of
the window (the redis member string is `str(now)`, so ZADD overwrites
instead of adding) is admitted but the window gains no entry — its
cardinality stays 1, refuting "the window gains exactly one entry at now"
as universally stated. -/
theorem rate_limit_duplicate_timestamp_no_new_entry :
    (check_rate_limit {(5 : Int)} 5 3 60).1.allowed = true ∧
    (check_rate_limit {(5 : Int)} 5 3 60).2 = {(5 : Int)} ∧
    (check_rate_limit {(5 : Int)} 5 3 60).2.card = ({(5 : Int)} : Finset Int).card := by
  decide

/-- C2 amended: provided no surviving entry is timestamped exactly `now`,
the check behaves as claimed — after the inclusive eviction of scores in
`[0, now − window]`, a count below the ceiling is admitted with
`remaining = max − count − 1` and the window gains exactly one entry at
`now`, and otherwise the call is denied with `remaining = 0` and the
window is left with no new entry. The concrete 3-per-60s scenario: four
calls at 0, 1, 2, 3 yield allowed = true, true, true, false, the fourth
reporting remaining = 0. -/
theorem rate_limit_check_spec :
    (∀ (w : Finset Int) (now max_requests window_seconds : Int),
      now ∉ evict w (now - window_seconds) →
      ((((evict w (now - window_seconds)).card : Int) < max_requests →
        (check_rate_limit w now max_requests window_seconds).1.allowed = true ∧
        (check_rate_limit w now max_requests window_seconds).1.remaining
          = max_requests - ((evict w (now - window_seconds)).card : Int) - 1 ∧
        (check_rate_limit w now max_requests window_seconds).2
          = insert now (evict w (now - window_seconds)) ∧
        (check_rate_limit w now max_requests window_seconds).2.card
          = (evict w (now - window_seconds)).card + 1) ∧
      (¬ (((evict w (now - window_seconds)).card : Int) < max_requests) →
        (check_rate_limit w now max_requests window_seconds).1.allowed = false ∧
        (check_rate_limit w now max_requests window_seconds).1.remaining = 0 ∧
        (check_rate_limit w now max_requests window_seconds).2
          = evict w (now - window_seconds)))) ∧
    ((check_rate_limit ∅ 0 3 60).1.allowed = true ∧
     (check_rate_limit (check_rate_limit ∅ 0 3 60).2 1 3 60).1.allowed = true ∧
     (check_rate_limit (check_rate_limit (check_rate_limit ∅ 0 3 60).2 1 3 60).2
        2 3 60).1.allowed = true ∧
     (check_rate_limit (check_rate_limit (check_rate_limit
        (check_rate_limit ∅ 0 3 60).2 1 3 60).2 2 3 60).2 3 3 60).1.allowed = false ∧
     (check_rate_limit (check_rate_limit (check_rate_limit
        (check_rate_limit ∅ 0 3 60).2 1 3 60).2 2 3 60).2 3 3 60).1.remaining = 0) := by
  constructor
  · intro w now max_requests window_seconds h
    constructor
    · intro hc
      simp only [check_rate_limit, hc, decide_True, if_true]
      refine ⟨by trivial, ?_, by trivial, ?_⟩
      · exact max_eq_right (by omega)
      · exact Finset.card_insert_of_not_mem h
    · intro hc
      simp only [check_rate_limit, hc, decide_False, Bool.false_eq_true, if_false]
      exact ⟨by trivial, by trivial, Finset.erase_insert h⟩
  · decide

/-- Witness for `rate_limit_check_spec`: the first call on an empty window
is admitted with two requests left. -/
theorem rate_limit_check_spec_witness :
    (check_rate_limit ∅ 0 3 60).1.allowed = true ∧
    (check_rate_limit ∅ 0 3 60).1.remaining = 2 := by
  have h := (rate_limit_check_spec.1 ∅ 0 3 60 (by decide)).1 (by decide)
  exact ⟨h.1, by rw [h.2.1]; decide⟩

/-- C3: the usage read-decrement-write is not an atomic conditional update
against the store. `check_and_decrement` is a pure function of the
`remaining_uses` value the handler read when it loaded the record, and the
handler writes the result back with no conditional guard; two concurrent
verifications that both load the record before either write commits (the
interleaving read-read-write-write) therefore both compute on
`remaining_uses = 1` and both return valid, where the claim demands that
exactly one succeed. -/
theorem usage_decrement_not_atomic :
    (verify_key ipv4 (some kUsage1) (some "1.2.3.4") none 10 ∅ []).resp.valid = true ∧
    (verify_key ipv4 (some kUsage1) (some "1.2.3.4") none 11 ∅ []).resp.valid = true ∧
    ((verify_key ipv4 (some kUsage1) (some "1.2.3.4") none 10 ∅ []).api_key.map
        ApiKey.remaining_uses) = some (some 0) ∧
    check_and_decrement (some 1) (some 1) = (true, some 0) := by
  exact ⟨rfl, rfl, rfl, rfl⟩

/-- C4: the verification pipeline never applies the refill policy. The
response, the window, the audit trail, and the stored remaining count are
all invariant under arbitrary changes to the record's `refill_enabled`,
`refill_amount`, `refill_interval` and `last_refill_at` fields; in
particular an exhausted key whose refill is due (`kRefill`: remaining 0,
refill of 5 every 60s last done at 0, verified at 1000) is rejected with
"Usage limit exceeded" and its record — `last_refill_at` included — is
left exactly as loaded, where the claim requires the quota to be
replenished to `min(max, remaining + refill_amount)` first. -/
theorem refill_never_applied :
    (∀ (F : IpFamily) (k : ApiKey) (ip ua : Option String) (now : Int)
        (w : Finset Int) (a : List AuditEntry) (e : Bool) (ra ri lr : Option Int),
      ((verify_key F (some { k with
          refill_enabled := e, refill_amount := ra,
          refill_interval := ri, last_refill_at := lr }) ip ua now w a).resp
        = (verify_key F (some k) ip ua now w a).resp) ∧
      ((verify_key F (some { k with
          refill_enabled := e, refill_amount := ra,
          refill_interval := ri, last_refill_at := lr }) ip ua now w a).window
        = (verify_key F (some k) ip ua now w a).window) ∧
      ((verify_key F (some { k with
          refill_enabled := e, refill_amount := ra,
          refill_interval := ri, last_refill_at := lr }) ip ua now w a).audit
        = (verify_key F (some k) ip ua now w a).audit) ∧
      (((verify_key F (some { k with
          refill_enabled := e, refill_amount := ra,
          refill_interval := ri, last_refill_at := lr }) ip ua now w a).api_key.map
            ApiKey.remaining_uses)
        = ((verify_key F (some k) ip ua now w a).api_key.map
            ApiKey.remaining_uses))) ∧
    ((verify_key ipv4 (some kRefill) (some "1.2.3.4") none 1000 ∅ []).resp.error
        = some "Usage limit exceeded" ∧
     (verify_key ipv4 (some kRefill) (some "1.2.3.4") none 1000 ∅ []).api_key
        = some kRefill) := by
  constructor
  · intro F k ip ua now w a e ra ri lr
    set k2 : ApiKey := { k with
      refill_enabled := e, refill_amount := ra,
      refill_interval := ri, last_refill_at := lr } with hk2
    by_cases h1 : k.revoked = true
    · rw [verify_key_revoked F k2 ip ua now w a h1,
        verify_key_revoked F k ip ua now w a h1]
      exact ⟨rfl, rfl, rfl, rfl⟩
    · rw [Bool.not_eq_true] at h1
      by_cases h2 : expiresPassed k now = true
      · rw [verify_key_expired F k2 ip ua now w a h1 h2,
          verify_key_expired F k ip ua now w a h1 h2]
        exact ⟨rfl, rfl, rfl, rfl⟩
      · rw [Bool.not_eq_true] at h2
        by_cases h3 : is_ip_allowed F ip k.allowed_ips = true
        · by_cases h4 : truthyInt k.rate_limit_max = true
          · by_cases h5 : (check_rate_limit w now (k.rate_limit_max.getD 0)
                (orInt k.rate_limit_window 3600)).1.allowed = true
            · rw [verify_key_rate_ok F k2 ip ua now w a h1 h2 h3 h4 h5,
                verify_key_rate_ok F k ip ua now w a h1 h2 h3 h4 h5]
              cases hru : k.remaining_uses with
              | none =>
                rw [verifyUsage_no_quota k2 ip ua now _ a _ _ hru,
                  verifyUsage_no_quota k ip ua now _ a _ _ hru]
                exact ⟨rfl, rfl, rfl, rfl⟩
              | some v =>
                by_cases h6 : v ≤ 0
                · rw [verifyUsage_denied k2 ip ua now _ a _ _ v hru h6,
                    verifyUsage_denied k ip ua now _ a _ _ v hru h6]
                  exact ⟨rfl, rfl, rfl, rfl⟩
                · rw [verifyUsage_ok k2 ip ua now _ a _ _ v hru (not_le.mp h6),
                    verifyUsage_ok k ip ua now _ a _ _ v hru (not_le.mp h6)]
                  exact ⟨rfl, rfl, rfl, rfl⟩
            · rw [Bool.not_eq_true] at h5
              rw [verify_key_rate_denied F k2 ip ua now w a h1 h2 h3 h4 h5,
                verify_key_rate_denied F k ip ua now w a h1 h2 h3 h4 h5]
              exact ⟨rfl, rfl, rfl, rfl⟩
          · rw [Bool.not_eq_true] at h4
            rw [verify_key_no_rate F k2 ip ua now w a h1 h2 h3 h4,
              verify_key_no_rate F k ip ua now w a h1 h2 h3 h4]
            cases hru : k.remaining_uses with
            | none =>
              rw [verifyUsage_no_quota k2 ip ua now w a _ _ hru,
                verifyUsage_no_quota k ip ua now w a _ _ hru]
              exact ⟨rfl, rfl, rfl, rfl⟩
            | some v =>
              by_cases h6 : v ≤ 0
              · rw [verifyUsage_denied k2 ip ua now w a _ _ v hru h6,
                  verifyUsage_denied k ip ua now w a _ _ v hru h6]
                exact ⟨rfl, rfl, rfl, rfl⟩
              · rw [verifyUsage_ok k2 ip ua now w a _ _ v hru (not_le.mp h6),
                  verifyUsage_ok k ip ua now w a _ _ v hru (not_le.mp h6)]
                exact ⟨rfl, rfl, rfl, rfl⟩
        · rw [Bool.not_eq_true] at h3
          rw [verify_key_ip_blocked F k2 ip ua now w a h1 h2 h3,
            verify_key_ip_blocked F k ip ua now w a h1 h2 h3]
          exact ⟨rfl, rfl, rfl, rfl⟩
  · exact ⟨rfl, rfl⟩

/-- C5 counterexample: a key with a rate ceiling, verified while the redis
store is down, produces an escaped infrastructure failure (an uncaught
exception, surfacing as HTTP 500) — not the domain outcome
"Rate limit exceeded" that fail-closed behaviour would require. -/
theorem store_failure_escapes_counterexample :
    verify_keyE ipv4 false (some kRate) (some "1.2.3.4") none 100 ∅ []
      = Except.error () := by
  rfl

/-- C5 amended: when the redis store fails at the rate-limit step of an
otherwise admissible request, the handler propagates the infrastructure
failure to the caller instead of failing closed; with a healthy store it
behaves exactly as `verify_key`. The usage step performs no store call at
verification time (`check_and_decrement` is pure), so no store failure can
arise there. -/
theorem store_failure_propagates (F : IpFamily) (k : ApiKey)
    (ip ua : Option String) (now : Int) (w : Finset Int) (a : List AuditEntry)
    (h1 : k.revoked = false) (h2 : expiresPassed k now = false)
    (h3 : is_ip_allowed F ip k.allowed_ips = true)
    (h4 : truthyInt k.rate_limit_max = true) :
    verify_keyE F false (some k) ip ua now w a = Except.error () ∧
    verify_keyE F true (some k) ip ua now w a
      = Except.ok (verify_key F (some k) ip ua now w a) := by
  constructor <;> simp [verify_keyE, h1, h2, h3, h4]

/-- Witness for `store_failure_propagates` at a concrete rate-limited key. -/
theorem store_failure_propagates_witness :
    verify_keyE ipv4 false (some kRate) (some "5.6.7.8") none 100 ∅ []
      = Except.error () :=
  (store_failure_propagates ipv4 kRate (some "5.6.7.8") none 100 ∅ []
    rfl rfl rfl rfl).1

/-- C6: a key that passes the revocation and expiry checks but whose
client IP is rejected fails with "IP not allowed", and the call is
side-effect free on the limiter state: the rate window is returned
untouched and the record — `remaining_uses` and `last_used_at` included —
is exactly the loaded one, so a subsequent call from an allowed IP runs
its rate check against the unchanged window and sees full quota. -/
theorem ip_blocked_consumes_no_quota (F : IpFamily) (k : ApiKey)
    (ip ua : Option String) (now : Int) (w : Finset Int) (a : List AuditEntry)
    (h1 : k.revoked = false) (h2 : expiresPassed k now = false)
    (h3 : is_ip_allowed F ip k.allowed_ips = false)
    (h4 : truthyInt k.rate_limit_max = true) :
    (verify_key F (some k) ip ua now w a).resp.valid = false ∧
    (verify_key F (some k) ip ua now w a).resp.error = some "IP not allowed" ∧
    (verify_key F (some k) ip ua now w a).window = w ∧
    (verify_key F (some k) ip ua now w a).api_key = some k := by
  rw [verify_key_ip_blocked F k ip ua now w a h1 h2 h3]
  exact ⟨rfl, rfl, rfl, rfl⟩

/-- Witness for `ip_blocked_consumes_no_quota`: a key allowing only
10.0.0.1 with a rate ceiling of 3, called from 9.9.9.9. -/
theorem ip_blocked_consumes_no_quota_witness :
    (verify_key ipv4 (some kIpRate) (some "9.9.9.9") none 100 ∅ []).resp.error
        = some "IP not allowed" ∧
    (verify_key ipv4 (some kIpRate) (some "9.9.9.9") none 100 ∅ []).window = ∅ := by
  have h := ip_blocked_consumes_no_quota ipv4 kIpRate (some "9.9.9.9") none 100 ∅ []
    rfl rfl (by decide) rfl
  exact ⟨h.2.1, h.2.2.1⟩

/-- C7: `check_and_decrement` is unlimited when no quota is configured,
denies with a floor of 0 when the remaining count is zero or negative, and
otherwise admits with the count decremented by one; the returned count,
when present, is never negative. -/
theorem check_and_decrement_spec (remaining max_uses : Option Int) :
    (remaining = none → check_and_decrement remaining max_uses = (true, none)) ∧
    (∀ v, remaining = some v → v ≤ 0 →
        check_and_decrement remaining max_uses = (false, some 0)) ∧
    (∀ v, remaining = some v → 0 < v →
        check_and_decrement remaining max_uses = (true, some (v - 1))) ∧
    (∀ b n, check_and_decrement remaining max_uses = (b, some n) → 0 ≤ n) := by
  refine ⟨?_, ?_, ?_, ?_⟩
  · intro h; rw [h]; rfl
  · intro v h hv; rw [h]; simp [check_and_decrement, hv]
  · intro v h hv; rw [h]; simp [check_and_decrement, not_le.mpr hv]
  · intro b n h
    cases remaining with
    | none => simp [check_and_decrement] at h
    | some v =>
      by_cases hv : v ≤ 0
      · simp [check_and_decrement, hv] at h
        omega
      · simp [check_and_decrement, hv] at h
        omega

/-- Witness for `check_and_decrement_spec`: a negative stored count is
denied and floored at 0. -/
theorem check_and_decrement_spec_witness :
    check_and_decrement (some (-3)) none = (false, some 0) :=
  (check_and_decrement_spec (some (-3)) none).2.1 (-3) rfl (by decide)

/-- C8: a verification attempt whose lookup misses writes no audit entry
and is the only terminal outcome without one; every attempt whose lookup
succeeds appends exactly one audit entry before returning, tagged
`"verify"`, carrying the client IP and user agent, and whose context holds
the success flag (equal to the response's validity) and a reason. -/
theorem verify_audit_discipline (F : IpFamily) (api_key? : Option ApiKey)
    (ip ua : Option String) (now : Int) (w : Finset Int) (a : List AuditEntry) :
    (api_key? = none → (verify_key F api_key? ip ua now w a).audit = a) ∧
    (∀ k, api_key? = some k → ∃ r : Option String,
      (verify_key F api_key? ip ua now w a).audit
        = a ++ [{ api_key_id := k.id, action := "verify", ip_address := ip,
                  user_agent := ua,
                  context := some ((verify_key F api_key? ip ua now w a).resp.valid,
                    r) }]) := by
  constructor
  · intro h; rw [h]; rfl
  · intro k hk
    subst hk
    by_cases h1 : k.revoked = true
    · rw [verify_key_revoked F k ip ua now w a h1]
      exact ⟨some "revoked", rfl⟩
    · rw [Bool.not_eq_true] at h1
      by_cases h2 : expiresPassed k now = true
      · rw [verify_key_expired F k ip ua now w a h1 h2]
        exact ⟨some "expired", rfl⟩
      · rw [Bool.not_eq_true] at h2
        by_cases h3 : is_ip_allowed F ip k.allowed_ips = true
        · by_cases h4 : truthyInt k.rate_limit_max = true
          · by_cases h5 : (check_rate_limit w now (k.rate_limit_max.getD 0)
                (orInt k.rate_limit_window 3600)).1.allowed = true
            · rw [verify_key_rate_ok F k ip ua now w a h1 h2 h3 h4 h5]
              cases hru : k.remaining_uses with
              | none =>
                rw [verifyUsage_no_quota k ip ua now _ a _ _ hru]
                exact ⟨none, rfl⟩
              | some v =>
                by_cases h6 : v ≤ 0
                · rw [verifyUsage_denied k ip ua now _ a _ _ v hru h6]
                  exact ⟨some "usage_exceeded", rfl⟩
                · rw [verifyUsage_ok k ip ua now _ a _ _ v hru (not_le.mp h6)]
                  exact ⟨none, rfl⟩
            · rw [Bool.not_eq_true] at h5
              rw [verify_key_rate_denied F k ip ua now w a h1 h2 h3 h4 h5]
              exact ⟨some "rate_limited", rfl⟩
          · rw [Bool.not_eq_true] at h4
            rw [verify_key_no_rate F k ip ua now w a h1 h2 h3 h4]
            cases hru : k.remaining_uses with
            | none =>
              rw [verifyUsage_no_quota k ip ua now w a _ _ hru]
              exact ⟨none, rfl⟩
            | some v =>
              by_cases h6 : v ≤ 0
              · rw [verifyUsage_denied k ip ua now w a _ _ v hru h6]
                exact ⟨some "usage_exceeded", rfl⟩
              · rw [verifyUsage_ok k ip ua now w a _ _ v hru (not_le.mp h6)]
                exact ⟨none, rfl⟩
        · rw [Bool.not_eq_true] at h3
          rw [verify_key_ip_blocked F k ip ua now w a h1 h2 h3]
          exact ⟨some "ip_blocked", rfl⟩

/-- Witness for `verify_audit_discipline`: a concrete revoked key appends
exactly one verify entry to an empty trail. -/
theorem verify_audit_discipline_witness :
    (verify_key ipv4 (some kRevoked) (some "1.2.3.4") none 100 ∅ []).audit.length
      = 1 := by
  obtain ⟨r, hr⟩ := (verify_audit_discipline ipv4 (some kRevoked) (some "1.2.3.4")
    none 100 ∅ []).2 kRevoked rfl
  rw [hr]
  rfl

/-- C9: with an empty or absent allow-list every client is admitted; with
a non-empty list an unparsable client address is rejected (fail closed),
and a parsable one is admitted exactly when some entry matches — an entry
containing a slash by CIDR membership, any other by single-address
equality — while an entry that itself fails to parse never matches (it is
skipped, not fatal). -/
theorem is_ip_allowed_spec (F : IpFamily) (s : String) (l : Option (List String)) :
    (l = none → is_ip_allowed F (some s) l = true) ∧
    (l = some [] → is_ip_allowed F (some s) l = true) ∧
    (∀ xs, l = some xs → xs ≠ [] → F.parseAddr s = none →
        is_ip_allowed F (some s) l = false) ∧
    (∀ xs apt, l = some xs → xs ≠ [] → F.parseAddr s = some apt →
        (is_ip_allowed F (some s) l = true ↔
          ∃ e ∈ xs, entry_matches F apt e = true)) ∧
    (∀ apt e, e.data.contains '/' = true → F.parseNet e = none →
        entry_matches F apt e = false) ∧
    (∀ apt e, e.data.contains '/' = false → F.parseAddr e = none →
        entry_matches F apt e = false) := by
  refine ⟨?_, ?_, ?_, ?_, ?_, ?_⟩
  · intro h; rw [h]; rfl
  · intro h; rw [h]; rfl
  · intro xs hl hne hp
    subst hl
    cases xs with
    | nil => exact absurd rfl hne
    | cons x t => simp [is_ip_allowed, hp]
  · intro xs apt hl hne hp
    subst hl
    cases xs with
    | nil => exact absurd rfl hne
    | cons x t => simp [is_ip_allowed, hp, List.any_eq_true]
  · intro apt e hc hn
    unfold entry_matches
    rw [hc]
    simp [hn]
  · intro apt e hc hn
    unfold entry_matches
    rw [hc]
    simp [hn]

/-- Witness for `is_ip_allowed_spec`: CIDR membership admits 10.0.0.5
against 10.0.0.0/24 with a malformed entry skipped, an unparsable client
is rejected, and an absent list admits anyone. -/
theorem is_ip_allowed_spec_witness :
    is_ip_allowed ipv4 (some "10.0.0.5") (some ["bad", "10.0.0.0/24"]) = true ∧
    is_ip_allowed ipv4 (some "not-an-ip") (some ["10.0.0.1"]) = false ∧
    is_ip_allowed ipv4 (some "8.8.8.8") none = true := by
  refine ⟨?_, ?_, ?_⟩
  · exact ((is_ip_allowed_spec ipv4 "10.0.0.5" (some ["bad", "10.0.0.0/24"])).2.2.2.1
      ["bad", "10.0.0.0/24"] (show ipv4.Addr from (167772165 : Nat)) rfl
      (by decide) rfl).mpr
      ⟨"10.0.0.0/24", by decide, by decide⟩
  · exact (is_ip_allowed_spec ipv4 "not-an-ip" (some ["10.0.0.1"])).2.2.1
      ["10.0.0.1"] rfl (by decide) rfl
  · exact (is_ip_allowed_spec ipv4 "8.8.8.8" none).1 rfl

/-- C10: on a successful verification the `remaining` and `reset_at`
fields of the response are rate-limiter telemetry only — populated from
the sliding-window check exactly when a rate ceiling is configured, and
`None` otherwise, whatever usage quota the key carries; the usage quota's
remaining count is never reported there. -/
theorem success_telemetry_is_rate_only (F : IpFamily) (k : ApiKey)
    (ip ua : Option String) (now : Int) (w : Finset Int) (a : List AuditEntry)
    (hs : (verify_key F (some k) ip ua now w a).resp.valid = true) :
    (truthyInt k.rate_limit_max = false →
      (verify_key F (some k) ip ua now w a).resp.remaining = none ∧
      (verify_key F (some k) ip ua now w a).resp.reset_at = none) ∧
    (truthyInt k.rate_limit_max = true →
      (verify_key F (some k) ip ua now w a).resp.remaining
        = some ((check_rate_limit w now (k.rate_limit_max.getD 0)
            (orInt k.rate_limit_window 3600)).1.remaining) ∧
      (verify_key F (some k) ip ua now w a).resp.reset_at
        = some ((check_rate_limit w now (k.rate_limit_max.getD 0)
            (orInt k.rate_limit_window 3600)).1.reset_at)) := by
  by_cases h1 : k.revoked = true
  · rw [verify_key_revoked F k ip ua now w a h1] at hs
    exact absurd hs (by simp)
  · rw [Bool.not_eq_true] at h1
    by_cases h2 : expiresPassed k now = true
    · rw [verify_key_expired F k ip ua now w a h1 h2] at hs
      exact absurd hs (by simp)
    · rw [Bool.not_eq_true] at h2
      by_cases h3 : is_ip_allowed F ip k.allowed_ips = true
      · by_cases h4 : truthyInt k.rate_limit_max = true
        · by_cases h5 : (check_rate_limit w now (k.rate_limit_max.getD 0)
              (orInt k.rate_limit_window 3600)).1.allowed = true
          · rw [verify_key_rate_ok F k ip ua now w a h1 h2 h3 h4 h5]
            constructor
            · intro hf; rw [h4] at hf; cases hf
            · intro _
              cases hru : k.remaining_uses with
              | none =>
                rw [verifyUsage_no_quota k ip ua now _ a _ _ hru]
                exact ⟨rfl, rfl⟩
              | some v =>
                by_cases h6 : v ≤ 0
                · rw [verify_key_rate_ok F k ip ua now w a h1 h2 h3 h4 h5] at hs
                  rw [verifyUsage_denied k ip ua now _ a _ _ v hru h6] at hs
                  exact absurd hs (by simp)
                · rw [verifyUsage_ok k ip ua now _ a _ _ v hru (not_le.mp h6)]
                  exact ⟨rfl, rfl⟩
          · rw [Bool.not_eq_true] at h5
            rw [verify_key_rate_denied F k ip ua now w a h1 h2 h3 h4 h5] at hs
            exact absurd hs (by simp)
        · rw [Bool.not_eq_true] at h4
          rw [verify_key_no_rate F k ip ua now w a h1 h2 h3 h4]
          constructor
          · intro _
            cases hru : k.remaining_uses with
            | none =>
              rw [verifyUsage_no_quota k ip ua now w a _ _ hru]
              exact ⟨rfl, rfl⟩
            | some v =>
              by_cases h6 : v ≤ 0
              · rw [verify_key_no_rate F k ip ua now w a h1 h2 h3 h4] at hs
                rw [verifyUsage_denied k ip ua now w a _ _ v hru h6] at hs
                exact absurd hs (by simp)
              · rw [verifyUsage_ok k ip ua now w a _ _ v hru (not_le.mp h6)]
                exact ⟨rfl, rfl⟩
          · intro ht; rw [h4] at ht; cases ht
      · rw [Bool.not_eq_true] at h3
        rw [verify_key_ip_blocked F k ip ua now w a h1 h2 h3] at hs
        exact absurd hs (by simp)

/-- Witness for `success_telemetry_is_rate_only`: a key with a usage quota
of 5 but no rate ceiling verifies successfully with no telemetry. -/
theorem success_telemetry_is_rate_only_witness :
    (verify_key ipv4 (some kQuotaOnly) (some "1.2.3.4") none 100 ∅ []).resp.remaining
        = none ∧
    (verify_key ipv4 (some kQuotaOnly) (some "1.2.3.4") none 100 ∅ []).resp.reset_at
        = none :=
  (success_telemetry_is_rate_only ipv4 kQuotaOnly (some "1.2.3.4") none 100 ∅ []
    rfl).1 rfl
